import Mathlib

/-!
Shallow embedding of the OpenVMM vmbus client protocol engine
(src/vm/devices/vmbus/vmbus_client/src/lib.rs) and verification of the
frozen specification claims about it.

The per-handler functions below are direct translations of the Rust
handlers on `ClientTask`.  Hash maps are embedded as association lists
with first-match lookup; `Option` results model handlers that can panic
(`none` = the process aborts).  Oneshot reply senders and response
endpoints are embedded as opaque numeric identifiers, with the effects a
handler performs (wire messages posted to the synic, replies completed,
notifications emitted) collected into explicit output structures.
-/

namespace Vmbus

/-- Association-list lookup, first match wins.  Embeds `HashMap::get`. -/
def assocLookup {α β : Type} [DecidableEq α] : List (α × β) → α → Option β
  | [], _ => none
  | (k', v) :: rest, k => if k' = k then some v else assocLookup rest k

/-- Association-list removal of every binding of a key.  Embeds
`HashMap::remove` (keys are unique in the maps the client maintains). -/
def assocRemove {α β : Type} [DecidableEq α] : List (α × β) → α → List (α × β)
  | [], _ => []
  | (k', v) :: rest, k =>
    if k' = k then assocRemove rest k else (k', v) :: assocRemove rest k

/-- Association-list insert-or-overwrite.  Embeds `HashMap::insert`. -/
def assocInsert {α β : Type} [DecidableEq α] (m : List (α × β)) (k : α) (v : β) :
    List (α × β) :=
  (k, v) :: assocRemove m k

theorem assocLookup_insert_self {α β : Type} [DecidableEq α]
    (m : List (α × β)) (k : α) (v : β) :
    assocLookup (assocInsert m k v) k = some v := by
  simp [assocInsert, assocLookup]

theorem assocLookup_remove_self {α β : Type} [DecidableEq α]
    (m : List (α × β)) (k : α) :
    assocLookup (assocRemove m k) k = none := by
  induction m with
  | nil => simp [assocRemove, assocLookup]
  | cons e rest ih =>
    obtain ⟨k', v⟩ := e
    by_cases h : k' = k
    · simp [assocRemove, h, ih]
    · simp [assocRemove, assocLookup, h, ih]

theorem assocLookup_remove_other {α β : Type} [DecidableEq α]
    (m : List (α × β)) (k k' : α) (h : k' ≠ k) :
    assocLookup (assocRemove m k) k' = assocLookup m k' := by
  induction m with
  | nil => simp [assocRemove]
  | cons e rest ih =>
    obtain ⟨k0, v⟩ := e
    have hkk' : ¬ k = k' := fun hc => h hc.symm
    by_cases h0 : k0 = k
    · simp [assocRemove, assocLookup, h0, hkk', ih]
    · by_cases h1 : k0 = k'
      · simp [assocRemove, assocLookup, h0, h1, h]
      · simp [assocRemove, assocLookup, h0, h1, ih]

theorem assocLookup_insert_other {α β : Type} [DecidableEq α]
    (m : List (α × β)) (k k' : α) (v : β) (h : k' ≠ k) :
    assocLookup (assocInsert m k v) k' = assocLookup m k' := by
  have : k ≠ k' := fun hc => h hc.symm
  simp [assocInsert, assocLookup, this, assocLookup_remove_other m k k' h]

/-- Fuel-driven worker for `chunkList`.  Each round takes a chunk of `n`
elements off the front; the fuel starts at the list length and, since a
nonempty list loses at least one element per round when `0 < n`, it never
runs out on the unreachable middle branch. -/
def chunkListGo {α : Type} (n : Nat) : Nat → List α → List (List α)
  | _, [] => []
  | 0, _ :: _ => []
  | fuel + 1, x :: xs => (x :: xs).take n :: chunkListGo n fuel ((x :: xs).drop n)

/-- Splitting a list into consecutive chunks of at most `n` elements.
Embeds Rust's `slice::chunks` as used for `GpadlBody` serialization
(`chunks` requires a positive chunk size; the `n = 0` guard is never hit
by the client, which passes `GpadlBody::MAX_DATA_VALUES`). -/
def chunkList {α : Type} (n : Nat) (l : List α) : List (List α) :=
  if n = 0 then [] else chunkListGo n l.length l

theorem chunkListGo_join {α : Type} (n : Nat) (hn : 0 < n) :
    ∀ (fuel : Nat) (l : List α), l.length ≤ fuel →
      (chunkListGo n fuel l).flatten = l := by
  intro fuel
  induction fuel with
  | zero =>
    intro l hl
    cases l with
    | nil => simp [chunkListGo]
    | cons x xs => simp at hl
  | succ fuel ih =>
    intro l hl
    cases l with
    | nil => simp [chunkListGo]
    | cons x xs =>
      rw [chunkListGo, List.flatten_cons]
      have hdrop : ((x :: xs).drop n).length ≤ fuel := by
        simp only [List.length_drop, List.length_cons]
        simp only [List.length_cons] at hl
        omega
      rw [ih _ hdrop, List.take_append_drop]

theorem chunkList_join {α : Type} (n : Nat) (hn : 0 < n) (l : List α) :
    (chunkList n l).flatten = l := by
  have hn' : ¬ n = 0 := Nat.pos_iff_ne_zero.mp hn
  rw [chunkList, if_neg hn']
  exact chunkListGo_join n hn l.length l (Nat.le_refl _)

theorem chunkListGo_length {α : Type} (n : Nat) (hn : 0 < n) :
    ∀ (fuel : Nat) (l : List α), l.length ≤ fuel →
      (chunkListGo n fuel l).length = (l.length + n - 1) / n := by
  intro fuel
  induction fuel with
  | zero =>
    intro l hl
    cases l with
    | nil =>
      simp only [chunkListGo, List.length_nil]
      exact (Nat.div_eq_of_lt (by omega)).symm
    | cons x xs => simp at hl
  | succ fuel ih =>
    intro l hl
    cases l with
    | nil =>
      simp only [chunkListGo, List.length_nil]
      exact (Nat.div_eq_of_lt (by omega)).symm
    | cons x xs =>
      rw [chunkListGo]
      simp only [List.length_cons]
      have hdrop : ((x :: xs).drop n).length ≤ fuel := by
        simp only [List.length_drop, List.length_cons]
        simp only [List.length_cons] at hl
        omega
      rw [ih _ hdrop]
      simp only [List.length_drop, List.length_cons]
      rcases Nat.lt_or_ge (xs.length + 1) n with hc | hc
      · have h1 : xs.length + 1 - n = 0 := by omega
        rw [h1]
        have h2 : (0 + n - 1) / n = 0 := Nat.div_eq_of_lt (by omega)
        rw [h2]
        have h3 : xs.length + 1 + n - 1 = xs.length + n := by omega
        rw [h3]
        have h4 : xs.length + n = xs.length + 1 * n := by omega
        rw [h4, Nat.add_mul_div_right _ _ hn]
        rw [Nat.div_eq_of_lt (by omega)]
      · have h1 : xs.length + 1 - n + n - 1 = xs.length + 1 - 1 := by omega
        rw [h1]
        have h2 : xs.length + 1 + n - 1 = (xs.length + 1 - 1) + 1 * n := by omega
        rw [h2, Nat.add_mul_div_right _ _ hn]

theorem chunkList_length {α : Type} (n : Nat) (hn : 0 < n) (l : List α) :
    (chunkList n l).length = (l.length + n - 1) / n := by
  have hn' : ¬ n = 0 := Nat.pos_iff_ne_zero.mp hn
  rw [chunkList, if_neg hn']
  exact chunkListGo_length n hn l.length l (Nat.le_refl _)

theorem chunkListGo_mem_length {α : Type} (n : Nat) :
    ∀ (fuel : Nat) (l : List α) (c : List α), c ∈ chunkListGo n fuel l →
      c.length ≤ n := by
  intro fuel
  induction fuel with
  | zero =>
    intro l c hc
    cases l with
    | nil => simp [chunkListGo] at hc
    | cons x xs => simp [chunkListGo] at hc
  | succ fuel ih =>
    intro l c hc
    cases l with
    | nil => simp [chunkListGo] at hc
    | cons x xs =>
      rw [chunkListGo] at hc
      rcases List.mem_cons.mp hc with hc | hc
      · subst hc
        simp only [List.length_take]
        omega
      · exact ih _ c hc

theorem chunkList_mem_length {α : Type} (n : Nat) (l : List α) :
    ∀ c ∈ chunkList n l, c.length ≤ n := by
  intro c hc
  rw [chunkList] at hc
  by_cases hn' : n = 0
  · simp [hn'] at hc
  · rw [if_neg hn'] at hc
    exact chunkListGo_mem_length n l.length l c hc

/-! Data model: protocol versions, feature flags, connection state. -/

/-- Protocol versions supported by this client, `Version::Iron` and
`Version::Copper` with their wire discriminants. -/
inductive Version : Type
  | Iron
  | Copper
deriving DecidableEq

/-- The numeric wire value of a version (the Rust enum discriminant:
Iron = 0x40004, Copper = 0x50000).  Rust's derived ordering on `Version`
compares these discriminants. -/
def Version.code : Version → Nat
  | Version.Iron => 0x40004
  | Version.Copper => 0x50000

/-- `const SUPPORTED_VERSIONS: &[Version] = &[Version::Iron, Version::Copper]`. -/
def SUPPORTED_VERSIONS : List Version := [Version.Iron, Version.Copper]

/-- Feature flags are a 32-bit mask.  Modelled from the spec: the
`FeatureFlags` bitfield itself lives in `vmbus_core::protocol`, which is
not part of this source tree; the spec describes it as "a bitmask
negotiated at connect time". -/
abbrev FeatureFlags := Nat

/-- Modelled from the spec: the `guest_specified_signal_parameters`
feature bit (the bit position is fixed by `vmbus_core`, which is not in
this source tree; only its identity matters to the claims). -/
def FeatureFlags.guest_specified_signal_parameters (f : FeatureFlags) : Bool :=
  f.testBit 0

/-- Modelled from the spec: the `channel_interrupt_redirection` feature bit. -/
def FeatureFlags.channel_interrupt_redirection (f : FeatureFlags) : Bool :=
  f.testBit 1

/-- Modelled from the spec: the `modify_connection` feature bit. -/
def FeatureFlags.modify_connection (f : FeatureFlags) : Bool :=
  f.testBit 2

/-- Modelled from the spec: `const SUPPORTED_FEATURE_FLAGS: FeatureFlags =
FeatureFlags::all()` — the full 32-bit feature mask; the client supports
every feature flag. -/
def SUPPORTED_FEATURE_FLAGS : FeatureFlags := 2 ^ 32 - 1

/-- `VersionInfo`: the negotiated version together with its feature flags. -/
structure VersionInfo : Type where
  version : Version
  feature_flags : FeatureFlags
deriving DecidableEq

/-- Monitor page GPA pair (`MonitorPageGpas`). -/
structure MonitorPageGpas : Type where
  parent_to_child : Nat
  child_to_parent : Nat
deriving DecidableEq

/-- `InitiateContactRequest`: the caller's connect parameters. -/
structure InitiateContactRequest : Type where
  target_message_vp : Nat
  monitor_page : Option MonitorPageGpas
  client_id : Nat
deriving DecidableEq

/-- The top-level connection state machine `ClientState`. -/
inductive ClientState : Type
  | Disconnected
  | Connecting (version : Version) (request : InitiateContactRequest)
  | Connected (version : VersionInfo)
  | RequestingOffers (version : VersionInfo)
  | Disconnecting (version : VersionInfo)
deriving DecidableEq

/-- `protocol::ConnectionState`, the status in a `VersionResponse`
and the reply type of a modify request.  Modelled from the spec
(`vmbus_core` open enum): the claims only need `SUCCESSFUL` and
`FAILED_UNKNOWN_FAILURE` to be distinct values. -/
inductive ConnectionState : Type
  | SUCCESSFUL
  | FAILED_LOW_RESOURCES
  | FAILED_UNKNOWN_FAILURE
deriving DecidableEq

/-- Wire form of `VersionResponse2` (a `VersionResponse` is converted
into this with `supported_features = 0` before handling). -/
structure VersionResponse2 : Type where
  version_supported : Nat
  connection_state : ConnectionState
  supported_features : Nat
deriving DecidableEq

/-! Wire messages posted to the synic. -/

/-- Fields of the `protocol::InitiateContact` message body (the
`interrupt_page_or_target_info` u64 is kept as its `TargetInfo`
components: SINT, VTL and feature flags). -/
structure InitiateContactFields : Type where
  version_requested : Nat
  target_message_vp : Nat
  sint : Nat
  vtl : Nat
  feature_flags : FeatureFlags
  monitor_parent : Nat
  monitor_child : Nat
deriving DecidableEq

/-- Fields of the `protocol::OpenChannel` message body. -/
structure OpenChannelFields : Type where
  channel_id : Nat
  open_id : Nat
  ring_buffer_gpadl_id : Nat
  target_vp : Nat
  downstream_ring_buffer_page_offset : Nat
  user_data : Nat
deriving DecidableEq

/-- The outbound wire messages the client can post to the synic. -/
inductive WireMessage : Type
  | InitiateContactMsg (fields : InitiateContactFields)
  | InitiateContact2Msg (fields : InitiateContactFields) (client_id : Nat)
  | RequestOffersMsg
  | UnloadMsg
  | ModifyConnectionMsg (monitor_parent : Nat) (monitor_child : Nat)
  | OpenChannelMsg (open_channel : OpenChannelFields)
  | OpenChannel2Msg (open_channel : OpenChannelFields) (connection_id : Nat)
      (event_flag : Nat) (flags : Nat)
  | GpadlHeaderMsg (channel_id : Nat) (gpadl_id : Nat) (len : Nat) (count : Nat)
      (data : List Nat)
  | GpadlBodyMsg (gpadl_id : Nat) (data : List Nat)
  | GpadlTeardownMsg (channel_id : Nat) (gpadl_id : Nat)
  | CloseChannelMsg (channel_id : Nat)
  | RelIdReleasedMsg (channel_id : Nat)
  | ModifyChannelMsg (channel_id : Nat) (target_vp : Nat)
  | TlConnectRequest2Msg (service_id : Nat) (endpoint_id : Nat) (silo_id : Nat)
deriving DecidableEq

/-! Per-channel and per-GPADL records. -/

/-- The fields of an `OfferChannel` descriptor the claims depend on. -/
structure OfferChannelFields : Type where
  channel_id : Nat
  interface_id : Nat
  instance_id : Nat
deriving DecidableEq

/-- Per-channel sub-state `ChannelState`.  The `Opening` reply sender is
an opaque sink identifier. -/
inductive ChannelState : Type
  | Offered
  | Opening (reply_sink : Nat)
  | Opened
deriving DecidableEq

/-- A channel record (`struct Channel`): offer descriptor, sub-state and
the optional pending modify-reply sender.  The per-channel response
endpoint is identified by the channel id in handler outputs. -/
structure Channel : Type where
  offer : OfferChannelFields
  state : ChannelState
  modify_response_send : Option Nat
deriving DecidableEq

/-- Per-GPADL sub-state `GpadlState`. -/
inductive GpadlState : Type
  | Offered (reply_sink : Nat)
  | Created
  | TearingDown
deriving DecidableEq

/-- A server response forwarded to a channel's response endpoint
(`ChannelResponse`). -/
inductive ChannelResponse : Type
  | TeardownGpadl (gpadl_id : Nat)
deriving DecidableEq

/-- Notifications published on the client's notification sink
(`ClientNotification`). -/
inductive Notification : Type
  | Offer (channel_id : Nat)
  | Revoke (channel_id : Nat)
  | HvsockConnectResult (service_id : Nat) (endpoint_id : Nat) (success : Bool)
deriving DecidableEq

/-! Connection FSM handlers. -/

/-- `const SINT: u8 = 2`. -/
def SINT : Nat := 2

/-- `const VTL: u8 = 0`. -/
def VTL : Nat := 0

/-- Output of the connection-level handlers: the new `ClientState`, the
wire messages posted (in order) and the replies sent on `connect_send`. -/
structure ConnectOutput : Type where
  state : ClientState
  sent : List WireMessage
  connectReplies : List (Option VersionInfo)
deriving DecidableEq

/-- `ClientTask::handle_initiate_contact`: from `Disconnected`, compute
the feature mask (the full supported mask at Copper and above, empty
below), build the `InitiateContact2` body, move to `Connecting`, and send
the old-format `InitiateContact` below Copper or `InitiateContact2`
otherwise.  From any other state, reply `None` on `connect_send`. -/
def handle_initiate_contact (s : ClientState) (request : InitiateContactRequest)
    (version : Version) : ConnectOutput :=
  match s with
  | ClientState.Disconnected =>
    let feature_flags : FeatureFlags :=
      if version.code ≥ Version.Copper.code then SUPPORTED_FEATURE_FLAGS else 0
    let monitor_page := request.monitor_page.getD ⟨0, 0⟩
    let fields : InitiateContactFields :=
      ⟨version.code, request.target_message_vp, SINT, VTL, feature_flags,
        monitor_page.parent_to_child, monitor_page.child_to_parent⟩
    let newState := ClientState.Connecting version request
    if version.code < Version.Copper.code then
      ⟨newState, [WireMessage.InitiateContactMsg fields], []⟩
    else
      ⟨newState, [WireMessage.InitiateContact2Msg fields request.client_id], []⟩
  | _ => ⟨s, [], [none]⟩

/-- The `ClientRequest::InitiateContact` arm of
`ClientTask::handle_client_request`: start negotiation at
`SUPPORTED_VERSIONS.last().unwrap()` (`none` models the unwrap panic on
an empty version list). -/
def handle_client_request_initiate (s : ClientState)
    (request : InitiateContactRequest) : Option ConnectOutput :=
  match SUPPORTED_VERSIONS.getLast? with
  | some v => some (handle_initiate_contact s request v)
  | none => none

/-- `ClientTask::handle_version_response`.  The state is first replaced
with `Disconnected` (`mem::replace`).  When the old state was
`Connecting`: a response with `version_supported > 0` must carry
`connection_state == SUCCESSFUL` (otherwise the process panics, `none`);
the feature flags are taken from the host-reported mask at Copper and
above and forced empty below; the state becomes `Connected` and the
version is replied.  When `version_supported == 0` the next-older entry
of `SUPPORTED_VERSIONS` is tried through `handle_initiate_contact`, and
the process panics (`none`) when the current version is the oldest. -/
def handle_version_response (s : ClientState) (msg : VersionResponse2) :
    Option ConnectOutput :=
  match s with
  | ClientState.Connecting version request =>
    if msg.version_supported > 0 then
      if msg.connection_state ≠ ConnectionState.SUCCESSFUL then none
      else
        let feature_flags : FeatureFlags :=
          if version.code ≥ Version.Copper.code then msg.supported_features else 0
        let vi : VersionInfo := ⟨version, feature_flags⟩
        some ⟨ClientState.Connected vi, [], [some vi]⟩
    else
      match SUPPORTED_VERSIONS.findIdx? (fun v => v = version) with
      | none => none
      | some index =>
        if index = 0 then none
        else
          match SUPPORTED_VERSIONS.get? (index - 1) with
          | none => none
          | some next =>
            some (handle_initiate_contact ClientState.Disconnected request next)
  | _ => some ⟨ClientState.Disconnected, [], []⟩

/-- Output of `handle_modify`: the (unchanged) connection state, the
pending modify slot, the completions delivered on the request's reply
sender and the wire messages posted. -/
structure ModifyOutput : Type where
  state : ClientState
  modify_request : Option Nat
  modifyReplies : List (Nat × ConnectionState)
  sent : List WireMessage
deriving DecidableEq

/-- `ClientTask::handle_modify`: unless the state is `Connected` with the
`modify_connection` feature flag and no modify is already pending, the
request is completed with `FAILED_UNKNOWN_FAILURE` and nothing is sent;
otherwise a `ModifyConnection` message is posted and the reply sender is
stashed in `modify_request`. -/
def handle_modify (s : ClientState) (pending : Option Nat)
    (request : Option MonitorPageGpas) (sink : Nat) : ModifyOutput :=
  let supported : Bool :=
    match s with
    | ClientState.Connected vi => FeatureFlags.modify_connection vi.feature_flags
    | _ => false
  if supported = false then
    ⟨s, pending, [(sink, ConnectionState.FAILED_UNKNOWN_FAILURE)], []⟩
  else if pending.isSome then
    ⟨s, pending, [(sink, ConnectionState.FAILED_UNKNOWN_FAILURE)], []⟩
  else
    let monitor_page := request.getD ⟨0, 0⟩
    ⟨s, some sink, [],
      [WireMessage.ModifyConnectionMsg monitor_page.parent_to_child
        monitor_page.child_to_parent]⟩

/-! Channel registry handlers. -/

/-- The channel registry: channel id to channel record (`inner.channels`). -/
abbrev Channels := List (Nat × Channel)

/-- The GPADL registry: `(channel_id, gpadl_id)` to sub-state
(`inner.gpadls`). -/
abbrev Gpadls := List ((Nat × Nat) × GpadlState)

/-- The in-flight-teardown map: gpadl id to optional channel id
(`inner.teardown_gpadls`). -/
abbrev TeardownGpadls := List (Nat × Option Nat)

/-- Accumulated result of the `gpadls.retain` loop inside
`ClientTask::handle_rescind`. -/
structure RescindAcc : Type where
  kept : Gpadls
  teardowns : TeardownGpadls
  sent : List WireMessage
  responses : List (Nat × ChannelResponse)
deriving DecidableEq

/-- The `gpadls.retain(..)` loop of `ClientTask::handle_rescind`: keep
every GPADL of another channel; for each GPADL of the rescinded channel,
synthesize an immediate `TeardownGpadl` response when it was already
`TearingDown` and post a `GpadlTeardown` wire message otherwise, insert
`teardown_gpadls[gpadl_id] = None`, and drop the record. -/
def rescindRetain (rid : Nat) : Gpadls → TeardownGpadls → RescindAcc
  | [], td => ⟨[], td, [], []⟩
  | e :: rest, td =>
    if e.1.1 = rid then
      let td' := assocInsert td e.1.2 none
      let r := rescindRetain rid rest td'
      match e.2 with
      | GpadlState.TearingDown =>
        ⟨r.kept, r.teardowns, r.sent,
          (rid, ChannelResponse.TeardownGpadl e.1.2) :: r.responses⟩
      | _ =>
        ⟨r.kept, r.teardowns,
          WireMessage.GpadlTeardownMsg e.1.1 e.1.2 :: r.sent, r.responses⟩
    else
      let r := rescindRetain rid rest td
      ⟨e :: r.kept, r.teardowns, r.sent, r.responses⟩

/-- Output of `handle_rescind`: the mutated registries and the effects. -/
structure RescindOutput : Type where
  channels : Channels
  gpadls : Gpadls
  teardown_gpadls : TeardownGpadls
  sent : List WireMessage
  responses : List (Nat × ChannelResponse)
  notifications : List Notification
deriving DecidableEq

/-- `ClientTask::handle_rescind`: the channel record is looked up by
indexing (`none` models the panic for an unknown id); all its GPADLs
are torn down by `rescindRetain`; the channel record is removed;
`RelIdReleased` is posted; `Revoke` is emitted on the notification
sink. -/
def handle_rescind (channels : Channels) (gpadls : Gpadls)
    (teardowns : TeardownGpadls) (rid : Nat) : Option RescindOutput :=
  match assocLookup channels rid with
  | none => none
  | some _ =>
    let acc := rescindRetain rid gpadls teardowns
    some ⟨assocRemove channels rid, acc.kept, acc.teardowns,
      acc.sent ++ [WireMessage.RelIdReleasedMsg rid],
      acc.responses, [Notification.Revoke rid]⟩

/-- Output of `handle_open_result`: the channel registry and the boolean
completions delivered to `Opening` reply senders. -/
structure OpenResultOutput : Type where
  channels : Channels
  boolReplies : List (Nat × Bool)
deriving DecidableEq

/-- `ClientTask::handle_open_result`: the channel must exist (`none`
models the `expect` panic); the sub-state is unconditionally replaced by
`Opened` on `STATUS_SUCCESS` (status 0) and `Offered` otherwise; only
when the previous sub-state was `Opening` is its reply sender completed
with the outcome. -/
def handle_open_result (channels : Channels) (cid : Nat) (status : Nat) :
    Option OpenResultOutput :=
  match assocLookup channels cid with
  | none => none
  | some ch =>
    let channel_opened : Bool := status = 0
    let new_state := if channel_opened then ChannelState.Opened
      else ChannelState.Offered
    let channels' := assocInsert channels cid { ch with state := new_state }
    match ch.state with
    | ChannelState.Opening reply_sink =>
      some ⟨channels', [(reply_sink, channel_opened)]⟩
    | _ => some ⟨channels', []⟩

/-- Output of `handle_modify_channel_response`. -/
structure ModifyChannelResponseOutput : Type where
  channels : Channels
  intReplies : List (Nat × Int)
deriving DecidableEq

/-- `ClientTask::handle_modify_channel_response`: the channel must exist
(`none` models the `expect` panic); `modify_response_send.take()` clears
the slot, and the taken sender (when present) is completed with the
status. -/
def handle_modify_channel_response (channels : Channels) (cid : Nat)
    (status : Int) : Option ModifyChannelResponseOutput :=
  match assocLookup channels cid with
  | none => none
  | some ch =>
    let channels' := assocInsert channels cid
      { ch with modify_response_send := none }
    match ch.modify_response_send with
    | none => some ⟨channels', []⟩
    | some sender => some ⟨channels', [(sender, status)]⟩

/-! GPADL registry handlers. -/

/-- Output of `handle_gpadl_created`. -/
structure GpadlCreatedOutput : Type where
  gpadls : Gpadls
  boolReplies : List (Nat × Bool)
deriving DecidableEq

/-- `ClientTask::handle_gpadl_created`: an unknown GPADL key or a
sub-state other than `Offered` is logged and dropped; on
`STATUS_SUCCESS` (status 0) the record becomes `Created`, otherwise it is
removed; in either case the `Offered` reply sender is completed with the
boolean. -/
def handle_gpadl_created (gpadls : Gpadls) (cid : Nat) (gid : Nat)
    (status : Int) : Option GpadlCreatedOutput :=
  match assocLookup gpadls (cid, gid) with
  | none => some ⟨gpadls, []⟩
  | some (GpadlState.Offered sender) =>
    if status = 0 then
      some ⟨assocInsert gpadls (cid, gid) GpadlState.Created, [(sender, true)]⟩
    else
      some ⟨assocRemove gpadls (cid, gid), [(sender, false)]⟩
  | some _ => some ⟨gpadls, []⟩

/-- Output of `handle_gpadl_torndown`. -/
structure TorndownOutput : Type where
  gpadls : Gpadls
  teardown_gpadls : TeardownGpadls
  responses : List (Nat × ChannelResponse)
deriving DecidableEq

/-- `ClientTask::handle_gpadl_torndown`: `teardown_gpadls.remove` drives
the three-way branch.  A missing entry is logged and dropped; a `None`
entry (implicit teardown by rescind) is silently consumed; a
`Some(channel_id)` entry removes the GPADL record (which must exist and
be `TearingDown`, and the channel must exist — `none` models those
panics) and delivers a `TeardownGpadl` response on the channel's response
endpoint. -/
def handle_gpadl_torndown (channels : Channels) (gpadls : Gpadls)
    (teardowns : TeardownGpadls) (gid : Nat) : Option TorndownOutput :=
  match assocLookup teardowns gid with
  | none => some ⟨gpadls, assocRemove teardowns gid, []⟩
  | some none => some ⟨gpadls, assocRemove teardowns gid, []⟩
  | some (some cid) =>
    let teardowns' := assocRemove teardowns gid
    match assocLookup gpadls (cid, gid) with
    | none => none
    | some st =>
      if st = GpadlState.TearingDown then
        match assocLookup channels cid with
        | none => none
        | some _ =>
          some ⟨assocRemove gpadls (cid, gid), teardowns',
            [(cid, ChannelResponse.TeardownGpadl gid)]⟩
      else none

/-! Channel request handlers. -/

/-- `OpenData` (from `vmbus_channel::bus`): the caller's open
parameters, as read by `handle_open_channel`. -/
structure OpenData : Type where
  ring_gpadl_id : Nat
  target_vp : Nat
  ring_offset : Nat
  user_data : Nat
  event_flag : Nat
  connection_id : Nat
deriving DecidableEq

/-- A caller `OpenRequest`: open data plus open flags. -/
structure OpenRequest : Type where
  open_data : OpenData
  flags : Nat
deriving DecidableEq

/-- Output of `handle_open_channel`. -/
structure OpenOutput : Type where
  channels : Channels
  sent : List WireMessage
  boolReplies : List (Nat × Bool)
deriving DecidableEq

/-- The `matches!` condition of `handle_open_channel` deciding between
`OpenChannel2` and `OpenChannel`: the client state is `Connected` and the
negotiated feature flags include `guest_specified_signal_parameters` or
`channel_interrupt_redirection`. -/
def open2Negotiated (s : ClientState) : Bool :=
  match s with
  | ClientState.Connected vi =>
    FeatureFlags.guest_specified_signal_parameters vi.feature_flags ||
      FeatureFlags.channel_interrupt_redirection vi.feature_flags
  | _ => false

/-- `ClientTask::handle_open_channel`: the channel must exist (`none`
models the `expect` panic).  A channel not in `Offered` replies `false`.
Otherwise an `OpenChannel` body is built; when the client state is
`Connected` with `guest_specified_signal_parameters` or
`channel_interrupt_redirection` negotiated, `OpenChannel2` is sent with
the caller's connection id, event flag and open flags; otherwise the
caller's event flag must equal the channel id truncated to 16 bits
(`none` models the assert panic) and plain `OpenChannel` is sent.  The
sub-state becomes `Opening` holding the reply sender. -/
def handle_open_channel (s : ClientState) (channels : Channels) (cid : Nat)
    (request : OpenRequest) (sink : Nat) : Option OpenOutput :=
  match assocLookup channels cid with
  | none => none
  | some ch =>
    if ch.state ≠ ChannelState.Offered then
      some ⟨channels, [], [(sink, false)]⟩
    else
      let open_channel : OpenChannelFields :=
        ⟨cid, 0, request.open_data.ring_gpadl_id, request.open_data.target_vp,
          request.open_data.ring_offset, request.open_data.user_data⟩
      let use_open2 : Bool := open2Negotiated s
      let channels' := assocInsert channels cid
        { ch with state := ChannelState.Opening sink }
      if use_open2 then
        some ⟨channels',
          [WireMessage.OpenChannel2Msg open_channel
            request.open_data.connection_id request.open_data.event_flag
            request.flags], []⟩
      else
        if request.open_data.event_flag = cid % 2 ^ 16 then
          some ⟨channels', [WireMessage.OpenChannelMsg open_channel], []⟩
        else none

/-- A caller `GpadlRequest`: the gpadl id, the PFN-range count and the
64-bit value buffer. -/
structure GpadlRequest : Type where
  id : Nat
  count : Nat
  buf : List Nat
deriving DecidableEq

/-- Output of `handle_gpadl`. -/
structure GpadlOutput : Type where
  gpadls : Gpadls
  sent : List WireMessage
deriving DecidableEq

/-- `ClientTask::handle_gpadl`, parameterized by
`GpadlHeader::MAX_DATA_VALUES` and `GpadlBody::MAX_DATA_VALUES` (numeric
constants of `vmbus_core`, not in this source tree).  A duplicate GPADL
key panics (`none`); otherwise the record is inserted as `Offered`, the
buffer is split at the header capacity, a `GpadlHeader` with byte length
`buf.len() * 8` (which must fit in a u32 — `none` models the `try_into`
panic) and the caller's range count is sent carrying the first values,
and the rest is sent in `GpadlBody` chunks. -/
def handle_gpadl (maxHeader : Nat) (maxBody : Nat) (gpadls : Gpadls)
    (cid : Nat) (request : GpadlRequest) (sink : Nat) : Option GpadlOutput :=
  if (assocLookup gpadls (cid, request.id)).isSome then none
  else
    let gpadls' := assocInsert gpadls (cid, request.id)
      (GpadlState.Offered sink)
    if request.buf.length * 8 ≥ 2 ^ 32 then none
    else
      let first := if request.buf.length > maxHeader
        then request.buf.take maxHeader else request.buf
      let remaining := if request.buf.length > maxHeader
        then request.buf.drop maxHeader else []
      let header := WireMessage.GpadlHeaderMsg cid request.id
        (request.buf.length * 8) request.count first
      let bodies := (chunkList maxBody remaining).map
        (fun c => WireMessage.GpadlBodyMsg request.id c)
      some ⟨gpadls', header :: bodies⟩

/-- `ClientTask::check_version`: connected with at least the given
version. -/
def check_version (s : ClientState) (version : Version) : Bool :=
  match s with
  | ClientState.Connected vi => vi.version.code ≥ version.code
  | _ => false

/-- Output of `handle_modify_channel`.  The handler never completes the
caller's reply sender itself (`intReplies` is always empty); the reply is
delivered later by `handle_modify_channel_response`. -/
structure ModifyChannelOutput : Type where
  channels : Channels
  sent : List WireMessage
  intReplies : List (Nat × Int)
deriving DecidableEq

/-- `ClientTask::handle_modify_channel`: asserts the client is connected
at `Iron` or above, panics for an unknown channel id, panics when a
modify reply sender is already pending (`none` models each), and
otherwise stashes the reply sender and posts `ModifyChannel`. -/
def handle_modify_channel (s : ClientState) (channels : Channels) (cid : Nat)
    (target_vp : Nat) (sink : Nat) : Option ModifyChannelOutput :=
  if check_version s Version.Iron = false then none
  else
    match assocLookup channels cid with
    | none => none
    | some ch =>
      if ch.modify_response_send.isSome then none
      else
        some ⟨assocInsert channels cid
          { ch with modify_response_send := some sink },
          [WireMessage.ModifyChannelMsg cid target_vp], []⟩

/-- The `ChannelRequest::Modify` path of
`ClientTask::handle_channel_request`: a request for a channel id missing
from the registry is logged and dropped before the per-request handler
runs; otherwise `handle_modify_channel` handles it. -/
def handle_channel_request_modify (s : ClientState) (channels : Channels)
    (cid : Nat) (target_vp : Nat) (sink : Nat) : Option ModifyChannelOutput :=
  match assocLookup channels cid with
  | none => some ⟨channels, [], []⟩
  | some _ => handle_modify_channel s channels cid target_vp sink

/-! Invariants of the rescind teardown loop, used by C3. -/

theorem rescindRetain_kept_ne (rid : Nat) (l : Gpadls) :
    ∀ td : TeardownGpadls, ∀ e ∈ (rescindRetain rid l td).kept,
      e.1.1 ≠ rid := by
  induction l with
  | nil =>
    intro td e he
    simp [rescindRetain] at he
  | cons x rest ih =>
    intro td e he
    obtain ⟨⟨xc, xg⟩, xs⟩ := x
    simp only [rescindRetain] at he
    by_cases hx : xc = rid
    · rw [if_pos hx] at he
      cases xs with
      | TearingDown => exact ih _ e he
      | Offered sk => exact ih _ e he
      | Created => exact ih _ e he
    · rw [if_neg hx] at he
      rcases List.mem_cons.mp he with hh | hh
      · subst hh
        exact hx
      · exact ih _ e hh

theorem rescindRetain_kept_lookup (rid : Nat) (cid : Nat) (gid : Nat)
    (h : cid ≠ rid) (l : Gpadls) :
    ∀ td : TeardownGpadls,
      assocLookup (rescindRetain rid l td).kept (cid, gid) =
        assocLookup l (cid, gid) := by
  induction l with
  | nil =>
    intro td
    simp [rescindRetain]
  | cons x rest ih =>
    intro td
    obtain ⟨⟨xc, xg⟩, xs⟩ := x
    simp only [rescindRetain]
    by_cases hx : xc = rid
    · rw [if_pos hx]
      have hne : ¬ ((xc, xg) = (cid, gid)) := by
        simp only [Prod.mk.injEq, not_and]
        intro hc _
        exact h (hc ▸ hx)
      cases xs with
      | TearingDown =>
        rw [ih]
        simp [assocLookup, hne]
      | Offered sk =>
        rw [ih]
        simp [assocLookup, hne]
      | Created =>
        rw [ih]
        simp [assocLookup, hne]
    · rw [if_neg hx]
      by_cases hk : (xc, xg) = (cid, gid)
      · simp [assocLookup, hk]
      · simp [assocLookup, hk, ih]

theorem rescindRetain_sent_shape (rid : Nat) (l : Gpadls) :
    ∀ td : TeardownGpadls, ∀ m ∈ (rescindRetain rid l td).sent,
      ∃ g, m = WireMessage.GpadlTeardownMsg rid g := by
  induction l with
  | nil =>
    intro td m hm
    simp [rescindRetain] at hm
  | cons x rest ih =>
    intro td m hm
    obtain ⟨⟨xc, xg⟩, xs⟩ := x
    simp only [rescindRetain] at hm
    by_cases hx : xc = rid
    · rw [if_pos hx] at hm
      cases xs with
      | TearingDown => exact ih _ m hm
      | Offered sk =>
        rcases List.mem_cons.mp hm with hh | hh
        · exact ⟨xg, by rw [hh, hx]⟩
        · exact ih _ m hh
      | Created =>
        rcases List.mem_cons.mp hm with hh | hh
        · exact ⟨xg, by rw [hh, hx]⟩
        · exact ih _ m hh
    · rw [if_neg hx] at hm
      exact ih _ m hm

theorem rescindRetain_sent_mem (rid : Nat) (gid : Nat) (st : GpadlState)
    (hst : st ≠ GpadlState.TearingDown) (l : Gpadls) :
    ∀ td : TeardownGpadls, ((rid, gid), st) ∈ l →
      WireMessage.GpadlTeardownMsg rid gid ∈ (rescindRetain rid l td).sent := by
  induction l with
  | nil =>
    intro td hmem
    cases hmem
  | cons x rest ih =>
    intro td hmem
    obtain ⟨⟨xc, xg⟩, xs⟩ := x
    rcases List.mem_cons.mp hmem with he | ht
    · injection he with hkey hval
      injection hkey with h1 h2
      subst h1
      subst h2
      subst hval
      cases st with
      | TearingDown => exact absurd rfl hst
      | Offered sk => simp [rescindRetain]
      | Created => simp [rescindRetain]
    · simp only [rescindRetain]
      by_cases hx : xc = rid
      · rw [if_pos hx]
        cases xs with
        | TearingDown => exact ih _ ht
        | Offered sk => exact List.mem_cons_of_mem _ (ih _ ht)
        | Created => exact List.mem_cons_of_mem _ (ih _ ht)
      · rw [if_neg hx]
        exact ih _ ht

theorem rescindRetain_responses_mem (rid : Nat) (gid : Nat) (l : Gpadls) :
    ∀ td : TeardownGpadls, ((rid, gid), GpadlState.TearingDown) ∈ l →
      (rid, ChannelResponse.TeardownGpadl gid) ∈
        (rescindRetain rid l td).responses := by
  induction l with
  | nil =>
    intro td hmem
    cases hmem
  | cons x rest ih =>
    intro td hmem
    obtain ⟨⟨xc, xg⟩, xs⟩ := x
    rcases List.mem_cons.mp hmem with he | ht
    · injection he with hkey hval
      injection hkey with h1 h2
      subst h1
      subst h2
      subst hval
      simp [rescindRetain]
    · simp only [rescindRetain]
      by_cases hx : xc = rid
      · rw [if_pos hx]
        cases xs with
        | TearingDown => exact List.mem_cons_of_mem _ (ih _ ht)
        | Offered sk => exact ih _ ht
        | Created => exact ih _ ht
      · rw [if_neg hx]
        exact ih _ ht

theorem rescindRetain_teardown_stable (rid : Nat) (gid : Nat) (l : Gpadls) :
    ∀ td : TeardownGpadls, assocLookup td gid = some none →
      assocLookup (rescindRetain rid l td).teardowns gid = some none := by
  induction l with
  | nil =>
    intro td h
    simpa [rescindRetain] using h
  | cons x rest ih =>
    intro td h
    obtain ⟨⟨xc, xg⟩, xs⟩ := x
    simp only [rescindRetain]
    by_cases hx : xc = rid
    · rw [if_pos hx]
      have h' : assocLookup (assocInsert td xg none) gid = some none := by
        by_cases hg : xg = gid
        · subst hg
          exact assocLookup_insert_self td xg none
        · rw [assocLookup_insert_other td xg gid none (fun hc => hg hc.symm)]
          exact h
      cases xs with
      | TearingDown => exact ih _ h'
      | Offered sk => exact ih _ h'
      | Created => exact ih _ h'
    · rw [if_neg hx]
      exact ih _ h

theorem rescindRetain_teardown_inserted (rid : Nat) (gid : Nat)
    (st : GpadlState) (l : Gpadls) :
    ∀ td : TeardownGpadls, ((rid, gid), st) ∈ l →
      assocLookup (rescindRetain rid l td).teardowns gid = some none := by
  induction l with
  | nil =>
    intro td hmem
    cases hmem
  | cons x rest ih =>
    intro td hmem
    obtain ⟨⟨xc, xg⟩, xs⟩ := x
    rcases List.mem_cons.mp hmem with he | ht
    · injection he with hkey hval
      injection hkey with h1 h2
      subst h1
      subst h2
      subst hval
      have h' := rescindRetain_teardown_stable rid gid rest
        (assocInsert td gid none) (assocLookup_insert_self td gid none)
      cases st with
      | TearingDown => simpa [rescindRetain] using h'
      | Offered sk => simpa [rescindRetain] using h'
      | Created => simpa [rescindRetain] using h'
    · simp only [rescindRetain]
      by_cases hx : xc = rid
      · rw [if_pos hx]
        cases xs with
        | TearingDown => exact ih _ ht
        | Offered sk => exact ih _ ht
        | Created => exact ih _ ht
      · rw [if_neg hx]
        exact ih _ ht

/-! Claim theorems. -/

/-- C3: processing `RescindChannelOffer(id)` on a registered channel
leaves no channel record with that id and no GPADL record whose key
contains it, posts exactly one `RelIdReleased(id)`, emits a `Revoke(id)`
notification, and for every GPADL of the channel: a `TeardownGpadl`
response is synthesized to the caller when it was already `TearingDown`,
a `GpadlTeardown` wire message is sent otherwise, and in both cases
`teardown_gpadls[gpadl_id] = None` is recorded; records of other channels
are unchanged. -/
theorem c3_rescind_postconditions (channels : Channels) (gpadls : Gpadls)
    (teardowns : TeardownGpadls) (rid : Nat) (ch : Channel)
    (hch : assocLookup channels rid = some ch) :
    ∃ out, handle_rescind channels gpadls teardowns rid = some out ∧
      assocLookup out.channels rid = none ∧
      (∀ e ∈ out.gpadls, e.1.1 ≠ rid) ∧
      out.sent.count (WireMessage.RelIdReleasedMsg rid) = 1 ∧
      out.notifications = [Notification.Revoke rid] ∧
      (∀ gid st, ((rid, gid), st) ∈ gpadls →
        (st = GpadlState.TearingDown →
          (rid, ChannelResponse.TeardownGpadl gid) ∈ out.responses) ∧
        (st ≠ GpadlState.TearingDown →
          WireMessage.GpadlTeardownMsg rid gid ∈ out.sent) ∧
        assocLookup out.teardown_gpadls gid = some none) ∧
      (∀ cid, cid ≠ rid →
        assocLookup out.channels cid = assocLookup channels cid) ∧
      (∀ cid gid, cid ≠ rid →
        assocLookup out.gpadls (cid, gid) = assocLookup gpadls (cid, gid)) := by
  unfold handle_rescind
  rw [hch]
  refine ⟨_, rfl, ?_, ?_, ?_, rfl, ?_, ?_, ?_⟩
  · exact assocLookup_remove_self channels rid
  · exact rescindRetain_kept_ne rid gpadls teardowns
  · have hzero : (rescindRetain rid gpadls teardowns).sent.count
        (WireMessage.RelIdReleasedMsg rid) = 0 := by
      rw [List.count_eq_zero]
      intro hmem
      obtain ⟨g, hg⟩ := rescindRetain_sent_shape rid gpadls teardowns _ hmem
      cases hg
    rw [List.count_append, hzero, List.count_singleton_self]
  · intro gid st hmem
    refine ⟨fun hst => ?_, fun hst => ?_, ?_⟩
    · subst hst
      exact rescindRetain_responses_mem rid gid gpadls teardowns hmem
    · exact List.mem_append_left _
        (rescindRetain_sent_mem rid gid st hst gpadls teardowns hmem)
    · exact rescindRetain_teardown_inserted rid gid st gpadls teardowns hmem
  · intro cid hcid
    exact assocLookup_remove_other channels rid cid hcid
  · intro cid gid hcid
    exact rescindRetain_kept_lookup rid cid gid hcid gpadls teardowns

/-- A channel record for channel 1, used by the C3 witness. -/
def rescindTargetChannel : Channel := ⟨⟨1, 0, 0⟩, ChannelState.Opened, none⟩

/-- A channel record for channel 2, used by the C3 witness. -/
def rescindOtherChannel : Channel := ⟨⟨2, 0, 0⟩, ChannelState.Offered, none⟩

/-- The channel registry for the C3 witness. -/
def rescindChannels : Channels :=
  [(1, rescindTargetChannel), (2, rescindOtherChannel)]

/-- The GPADL registry for the C3 witness: channel 1 owns one GPADL
already tearing down and one created GPADL; channel 2 owns one GPADL. -/
def rescindGpadlTable : Gpadls :=
  [((1, 10), GpadlState.TearingDown), ((1, 11), GpadlState.Created),
    ((2, 12), GpadlState.Created)]

/-- C3 witness: rescinding channel 1 in a registry holding channels 1 and
2 and three GPADLs satisfies every postcondition of the claim. -/
theorem c3_rescind_postconditions_witness :
    assocLookup rescindChannels 1 = some rescindTargetChannel ∧
    ∃ out, handle_rescind rescindChannels rescindGpadlTable [] 1 = some out ∧
      assocLookup out.channels 1 = none ∧
      (∀ e ∈ out.gpadls, e.1.1 ≠ 1) ∧
      out.sent.count (WireMessage.RelIdReleasedMsg 1) = 1 ∧
      out.notifications = [Notification.Revoke 1] ∧
      (∀ gid st, ((1, gid), st) ∈ rescindGpadlTable →
        (st = GpadlState.TearingDown →
          (1, ChannelResponse.TeardownGpadl gid) ∈ out.responses) ∧
        (st ≠ GpadlState.TearingDown →
          WireMessage.GpadlTeardownMsg 1 gid ∈ out.sent) ∧
        assocLookup out.teardown_gpadls gid = some none) ∧
      (∀ cid, cid ≠ 1 →
        assocLookup out.channels cid = assocLookup rescindChannels cid) ∧
      (∀ cid gid, cid ≠ 1 →
        assocLookup out.gpadls (cid, gid) =
          assocLookup rescindGpadlTable (cid, gid)) :=
  ⟨rfl, c3_rescind_postconditions rescindChannels rescindGpadlTable [] 1
    rescindTargetChannel rfl⟩

/-- C5: a modify request made when the client is not in `Connected` state
with the `modify_connection` feature bit set, or while a modify is
already in flight, is completed with `FAILED_UNKNOWN_FAILURE`, posts no
wire message and leaves the connection state and the pending-modify slot
unchanged; otherwise a `ModifyConnection` message is emitted and the
reply sender is stashed until the response arrives. -/
theorem c5_modify_connection_rejection (s : ClientState) (pending : Option Nat)
    (request : Option MonitorPageGpas) (sink : Nat) :
    ((∀ vi, s = ClientState.Connected vi →
        FeatureFlags.modify_connection vi.feature_flags = false) ∨
        pending.isSome = true →
      handle_modify s pending request sink =
        ⟨s, pending, [(sink, ConnectionState.FAILED_UNKNOWN_FAILURE)], []⟩) ∧
    (∀ vi, s = ClientState.Connected vi →
      FeatureFlags.modify_connection vi.feature_flags = true → pending = none →
      handle_modify s pending request sink =
        ⟨s, some sink, [],
          [WireMessage.ModifyConnectionMsg
            (request.getD ⟨0, 0⟩).parent_to_child
            (request.getD ⟨0, 0⟩).child_to_parent]⟩) := by
  constructor
  · intro h
    cases s with
    | Connected vi =>
      rcases h with h | h
      · have hflag := h vi rfl
        simp [handle_modify, hflag]
      · by_cases hflag : FeatureFlags.modify_connection vi.feature_flags
        · simp [handle_modify, hflag, h]
        · simp [handle_modify, hflag]
    | Disconnected => simp [handle_modify]
    | Connecting v r => simp [handle_modify]
    | RequestingOffers vi => simp [handle_modify]
    | Disconnecting vi => simp [handle_modify]
  · intro vi hs hflag hpending
    subst hs
    subst hpending
    simp [handle_modify, hflag]

/-- C5 witness: post-connect at Iron with an empty feature mask, a modify
request is rejected with `FAILED_UNKNOWN_FAILURE` and nothing is sent. -/
theorem c5_modify_connection_rejection_witness :
    handle_modify (ClientState.Connected ⟨Version.Iron, 0⟩) none none 5 =
      ⟨ClientState.Connected ⟨Version.Iron, 0⟩, none,
        [(5, ConnectionState.FAILED_UNKNOWN_FAILURE)], []⟩ :=
  (c5_modify_connection_rejection (ClientState.Connected ⟨Version.Iron, 0⟩)
    none none 5).1 (Or.inl (fun vi h => by cases h; decide))

/-- C8: an inbound `OpenResult` on a registered channel unconditionally
rewrites the channel's sub-state to `Opened` on `STATUS_SUCCESS` and to
`Offered` otherwise, even when the previous sub-state was not `Opening`;
the reply sender is woken exactly when the previous sub-state was
`Opening`. -/
theorem c8_open_result_rewrites_state (channels : Channels) (cid : Nat)
    (status : Nat) (ch : Channel) (hch : assocLookup channels cid = some ch) :
    handle_open_result channels cid status =
      some ⟨assocInsert channels cid
        { ch with state := if status = 0 then ChannelState.Opened
            else ChannelState.Offered },
        match ch.state with
        | ChannelState.Opening reply_sink => [(reply_sink, decide (status = 0))]
        | _ => []⟩ := by
  unfold handle_open_result
  rw [hch]
  by_cases hst : status = 0 <;> cases hcs : ch.state <;> simp [hst, hcs]

/-- C8 witness: an `OpenResult` with a failure status on a channel whose
sub-state is `Opened` (not `Opening`) still rewrites the sub-state to
`Offered`, and wakes nothing. -/
theorem c8_open_result_rewrites_state_witness :
    handle_open_result [(3, ⟨⟨3, 0, 0⟩, ChannelState.Opened, none⟩)] 3 7 =
      some ⟨[(3, ⟨⟨3, 0, 0⟩, ChannelState.Offered, none⟩)], []⟩ := by
  have h := c8_open_result_rewrites_state
    [(3, ⟨⟨3, 0, 0⟩, ChannelState.Opened, none⟩)] 3 7
    ⟨⟨3, 0, 0⟩, ChannelState.Opened, none⟩ rfl
  simpa [assocInsert, assocRemove] using h

/-- C9: inbound `RescindChannelOffer`, `OpenResult` and
`ModifyChannelResponse` for a channel id missing from the registry abort
the process (modelled as `none`), while `GpadlCreated` for an unknown
GPADL key and `GpadlTorndown` for a gpadl id missing from
`teardown_gpadls` are logged and dropped without aborting. -/
theorem c9_unknown_id_handling (channels : Channels) (gpadls : Gpadls)
    (teardowns : TeardownGpadls) (cid : Nat) (gid : Nat) (status : Nat)
    (istatus : Int) :
    (assocLookup channels cid = none →
      handle_rescind channels gpadls teardowns cid = none ∧
      handle_open_result channels cid status = none ∧
      handle_modify_channel_response channels cid istatus = none) ∧
    (assocLookup gpadls (cid, gid) = none →
      handle_gpadl_created gpadls cid gid istatus = some ⟨gpadls, []⟩) ∧
    (assocLookup teardowns gid = none →
      handle_gpadl_torndown channels gpadls teardowns gid =
        some ⟨gpadls, assocRemove teardowns gid, []⟩) := by
  refine ⟨fun hc => ⟨?_, ?_, ?_⟩, fun hg => ?_, fun ht => ?_⟩
  · unfold handle_rescind
    rw [hc]
  · unfold handle_open_result
    rw [hc]
  · unfold handle_modify_channel_response
    rw [hc]
  · unfold handle_gpadl_created
    rw [hg]
  · unfold handle_gpadl_torndown
    rw [ht]

/-- C9 witness: with empty registries, id 0 is unknown everywhere; the
three channel-keyed inbound handlers abort and the two GPADL-keyed ones
drop the message. -/
theorem c9_unknown_id_handling_witness :
    (handle_rescind [] [] [] 0 = none ∧
      handle_open_result [] 0 0 = none ∧
      handle_modify_channel_response [] 0 0 = none) ∧
    handle_gpadl_created [] 0 0 0 = some ⟨[], []⟩ ∧
    handle_gpadl_torndown [] [] [] 0 = some ⟨[], assocRemove [] 0, []⟩ :=
  ⟨(c9_unknown_id_handling [] [] [] 0 0 0 0).1 rfl,
    (c9_unknown_id_handling [] [] [] 0 0 0 0).2.1 rfl,
    (c9_unknown_id_handling [] [] [] 0 0 0 0).2.2 rfl⟩

/-- C10 counterexample: a caller `ModifyChannel` request for a channel id
missing from the registry does not abort the process — the dispatcher
drops it with a warning before `handle_modify_channel` runs, with no
reply and no wire message — contradicting the claim that the unknown-id
case panics. -/
theorem c10_counterexample :
    handle_channel_request_modify
      (ClientState.Connected ⟨Version.Copper, SUPPORTED_FEATURE_FLAGS⟩)
      [] 0 0 0 = some ⟨[], [], []⟩ := by
  rfl

/-- C10 (amended): a caller `ModifyChannel` request for a registered
channel aborts the process rather than replying when the client is not
`Connected` at `Iron` or above, or when a modify reply sender is already
pending on the channel (the duplicate-modify limit is enforced fatally);
a request for an unknown channel id is dropped at dispatch with no reply;
the handler never completes the caller's reply sender itself. -/
theorem c10_modify_channel_fatal (s : ClientState) (channels : Channels)
    (cid : Nat) (target_vp : Nat) (sink : Nat) :
    (∀ ch, assocLookup channels cid = some ch →
      (check_version s Version.Iron = false →
        handle_channel_request_modify s channels cid target_vp sink = none) ∧
      (ch.modify_response_send.isSome = true →
        handle_channel_request_modify s channels cid target_vp sink = none)) ∧
    (assocLookup channels cid = none →
      handle_channel_request_modify s channels cid target_vp sink =
        some ⟨channels, [], []⟩) ∧
    (∀ out, handle_channel_request_modify s channels cid target_vp sink =
      some out → out.intReplies = []) := by
  refine ⟨fun ch hch => ⟨fun hver => ?_, fun hdup => ?_⟩, fun hnone => ?_, ?_⟩
  · unfold handle_channel_request_modify
    rw [hch]
    unfold handle_modify_channel
    rw [hver]
    simp
  · unfold handle_channel_request_modify
    rw [hch]
    unfold handle_modify_channel
    rw [hch]
    by_cases hver : check_version s Version.Iron <;> simp [hver, hdup]
  · unfold handle_channel_request_modify
    rw [hnone]
  · intro out hout
    unfold handle_channel_request_modify handle_modify_channel at hout
    split at hout
    · cases hout
      rfl
    · split at hout
      · cases hout
      · split at hout
        · cases hout
        · split at hout
          · cases hout
          · cases hout
            rfl

/-- A concrete channel record with a pending modify reply sender, used by
the C10 witness. -/
def pendingModifyChannel : Channel := ⟨⟨4, 0, 0⟩, ChannelState.Opened, some 8⟩

/-- C10 witness: a duplicate modify request (a reply sender already
pending) on a registered channel while connected at Copper aborts. -/
theorem c10_modify_channel_fatal_witness :
    assocLookup [(4, pendingModifyChannel)] 4 = some pendingModifyChannel ∧
    handle_channel_request_modify
      (ClientState.Connected ⟨Version.Copper, SUPPORTED_FEATURE_FLAGS⟩)
      [(4, pendingModifyChannel)] 4 1 9 = none :=
  ⟨rfl,
    ((c10_modify_channel_fatal
      (ClientState.Connected ⟨Version.Copper, SUPPORTED_FEATURE_FLAGS⟩)
      [(4, pendingModifyChannel)] 4 1 9).1
      pendingModifyChannel rfl).2 rfl⟩

/-- C2 counterexample: a Gpadl request with PFN-range count 1 and a
three-value buffer produces a `GpadlHeader` whose `len` field is 24 (the
byte length of the buffer), not `count * 8 = 8` as the claim states. -/
theorem c2_counterexample :
    handle_gpadl 25 26 [] 0 ⟨1, 1, [5, 6, 7]⟩ 9 =
      some ⟨[((0, 1), GpadlState.Offered 9)],
        [WireMessage.GpadlHeaderMsg 0 1 24 1 [5, 6, 7]]⟩ ∧
    (24 : Nat) ≠ 1 * 8 := by
  constructor
  · rfl
  · decide

/-- C2 (amended): the `GpadlHeader` emitted for a caller Gpadl request
has its `len` field equal to the byte length of the caller-supplied
64-bit value buffer (number of values times 8) and its `count` field
equal to the caller-supplied PFN-range count. -/
theorem c2_gpadl_header_fields (maxHeader : Nat) (maxBody : Nat)
    (gpadls : Gpadls) (cid : Nat) (request : GpadlRequest) (sink : Nat)
    (hfresh : assocLookup gpadls (cid, request.id) = none)
    (hfit : request.buf.length * 8 < 2 ^ 32) :
    ∃ out first, handle_gpadl maxHeader maxBody gpadls cid request sink =
      some out ∧
      out.sent.head? = some (WireMessage.GpadlHeaderMsg cid request.id
        (request.buf.length * 8) request.count first) := by
  unfold handle_gpadl
  rw [hfresh]
  have hnot : ¬ request.buf.length * 8 ≥ 2 ^ 32 := by omega
  simp only [Option.isSome_none, Bool.false_eq_true, if_false, hnot, if_true]
  exact ⟨_, _, rfl, rfl⟩

/-- C2 witness: a concrete request with count 2 and four values yields a
header with len 32 and count 2. -/
theorem c2_gpadl_header_fields_witness :
    assocLookup ([] : Gpadls) (3, 7) = none ∧
    ∃ out first, handle_gpadl 25 26 [] 3 ⟨7, 2, [10, 11, 12, 13]⟩ 9 =
      some out ∧
      out.sent.head? = some (WireMessage.GpadlHeaderMsg 3 7 32 2 first) :=
  ⟨rfl, c2_gpadl_header_fields 25 26 [] 3 ⟨7, 2, [10, 11, 12, 13]⟩ 9 rfl
    (by decide)⟩

/-- C6: the wire output for a caller Gpadl request is exactly one
`GpadlHeader` whose trailing payload is the first
`min(len(buf), MAX_HEADER_VALUES)` values (that is, `buf.take maxHeader`),
followed by `ceil((len(buf) - MAX_HEADER_VALUES) / MAX_BODY_VALUES)`
`GpadlBody` messages each carrying at most `MAX_BODY_VALUES` subsequent
values, whose payloads concatenate back to the original buffer. -/
theorem c6_gpadl_chunking (maxHeader : Nat) (maxBody : Nat) (hB : 0 < maxBody)
    (gpadls : Gpadls) (cid : Nat) (request : GpadlRequest) (sink : Nat)
    (hfresh : assocLookup gpadls (cid, request.id) = none)
    (hfit : request.buf.length * 8 < 2 ^ 32) :
    ∃ chunks : List (List Nat),
      handle_gpadl maxHeader maxBody gpadls cid request sink =
        some ⟨assocInsert gpadls (cid, request.id) (GpadlState.Offered sink),
          WireMessage.GpadlHeaderMsg cid request.id (request.buf.length * 8)
            request.count (request.buf.take maxHeader) ::
            chunks.map (fun c => WireMessage.GpadlBodyMsg request.id c)⟩ ∧
      chunks.length = (request.buf.length - maxHeader + maxBody - 1) / maxBody ∧
      (∀ c ∈ chunks, c.length ≤ maxBody) ∧
      request.buf.take maxHeader ++ chunks.flatten = request.buf := by
  unfold handle_gpadl
  rw [hfresh]
  have hnot : ¬ request.buf.length * 8 ≥ 2 ^ 32 := by omega
  simp only [Option.isSome_none, Bool.false_eq_true, if_false, hnot]
  by_cases hlen : request.buf.length > maxHeader
  · refine ⟨chunkList maxBody (request.buf.drop maxHeader), ?_, ?_, ?_, ?_⟩
    · simp only [hlen, if_true]
    · rw [chunkList_length maxBody hB, List.length_drop]
    · exact chunkList_mem_length maxBody _
    · rw [chunkList_join maxBody hB, List.take_append_drop]
  · have hle : request.buf.length ≤ maxHeader := by omega
    have htake : request.buf.take maxHeader = request.buf :=
      List.take_of_length_le hle
    refine ⟨[], ?_, ?_, ?_, ?_⟩
    · simp only [hlen, if_false, List.map_nil]
      rw [chunkList, if_neg (Nat.pos_iff_ne_zero.mp hB)]
      simp [chunkListGo, htake]
    · have hsub : request.buf.length - maxHeader = 0 := by omega
      rw [hsub]
      simp only [List.length_nil]
      exact (Nat.div_eq_of_lt (by omega)).symm
    · intro c hc
      simp at hc
    · simp [htake]

/-- C6 witness: with header capacity 2 and body capacity 2, a five-value
buffer is sent as one header carrying two values and two bodies carrying
two and one values. -/
theorem c6_gpadl_chunking_witness :
    0 < 2 ∧ assocLookup ([] : Gpadls) (1, 4) = none ∧
    ∃ chunks : List (List Nat),
      handle_gpadl 2 2 [] 1 ⟨4, 3, [20, 21, 22, 23, 24]⟩ 6 =
        some ⟨assocInsert [] (1, 4) (GpadlState.Offered 6),
          WireMessage.GpadlHeaderMsg 1 4 40 3 ([20, 21, 22, 23, 24].take 2) ::
            chunks.map (fun c => WireMessage.GpadlBodyMsg 4 c)⟩ ∧
      chunks.length = (5 - 2 + 2 - 1) / 2 ∧
      (∀ c ∈ chunks, c.length ≤ 2) ∧
      [20, 21, 22, 23, 24].take 2 ++ chunks.flatten = [20, 21, 22, 23, 24] :=
  ⟨by decide, rfl,
    c6_gpadl_chunking 2 2 (by decide) [] 1 ⟨4, 3, [20, 21, 22, 23, 24]⟩ 6 rfl
      (by decide)⟩

/-- C1: from `Disconnected`, a connect request attempts the supported
versions in descending order: it first issues a single
`InitiateContact2` for Copper; an inbound `VersionResponse` with
`version_supported == 0` makes it issue a single (old-format)
`InitiateContact` for Iron; a second rejection is fatal because no older
supported version exists. -/
theorem c1_version_negotiation_order (r : InitiateContactRequest)
    (m1 : VersionResponse2) (m2 : VersionResponse2)
    (h1 : m1.version_supported = 0) (h2 : m2.version_supported = 0) :
    ∃ f1 : InitiateContactFields,
      handle_client_request_initiate ClientState.Disconnected r =
        some ⟨ClientState.Connecting Version.Copper r,
          [WireMessage.InitiateContact2Msg f1 r.client_id], []⟩ ∧
      f1.version_requested = Version.Copper.code ∧
      ∃ f2 : InitiateContactFields,
        handle_version_response (ClientState.Connecting Version.Copper r) m1 =
          some ⟨ClientState.Connecting Version.Iron r,
            [WireMessage.InitiateContactMsg f2], []⟩ ∧
        f2.version_requested = Version.Iron.code ∧
        handle_version_response (ClientState.Connecting Version.Iron r) m2 =
          none := by
  refine ⟨⟨Version.Copper.code, r.target_message_vp, SINT, VTL,
    SUPPORTED_FEATURE_FLAGS, (r.monitor_page.getD ⟨0, 0⟩).parent_to_child,
    (r.monitor_page.getD ⟨0, 0⟩).child_to_parent⟩, ?_, rfl,
    ⟨Version.Iron.code, r.target_message_vp, SINT, VTL, 0,
      (r.monitor_page.getD ⟨0, 0⟩).parent_to_child,
      (r.monitor_page.getD ⟨0, 0⟩).child_to_parent⟩, ?_, rfl, ?_⟩
  · simp [handle_client_request_initiate, SUPPORTED_VERSIONS,
      handle_initiate_contact, Version.code]
  · simp [handle_version_response, h1, SUPPORTED_VERSIONS,
      handle_initiate_contact, Version.code, List.findIdx?]
  · simp [handle_version_response, h2, SUPPORTED_VERSIONS, List.findIdx?]

/-- C1 witness: the two-rejection negotiation trace at a concrete
request. -/
theorem c1_version_negotiation_order_witness :
    (⟨0, ConnectionState.FAILED_UNKNOWN_FAILURE, 0⟩ :
      VersionResponse2).version_supported = 0 ∧
    ∃ f1 : InitiateContactFields,
      handle_client_request_initiate ClientState.Disconnected ⟨1, none, 2⟩ =
        some ⟨ClientState.Connecting Version.Copper ⟨1, none, 2⟩,
          [WireMessage.InitiateContact2Msg f1 2], []⟩ ∧
      f1.version_requested = Version.Copper.code ∧
      ∃ f2 : InitiateContactFields,
        handle_version_response
          (ClientState.Connecting Version.Copper ⟨1, none, 2⟩)
          ⟨0, ConnectionState.FAILED_UNKNOWN_FAILURE, 0⟩ =
          some ⟨ClientState.Connecting Version.Iron ⟨1, none, 2⟩,
            [WireMessage.InitiateContactMsg f2], []⟩ ∧
        f2.version_requested = Version.Iron.code ∧
        handle_version_response
          (ClientState.Connecting Version.Iron ⟨1, none, 2⟩)
          ⟨0, ConnectionState.FAILED_UNKNOWN_FAILURE, 0⟩ = none :=
  ⟨rfl, c1_version_negotiation_order ⟨1, none, 2⟩
    ⟨0, ConnectionState.FAILED_UNKNOWN_FAILURE, 0⟩
    ⟨0, ConnectionState.FAILED_UNKNOWN_FAILURE, 0⟩ rfl rfl⟩

/-- C7: at Iron the feature mask is empty both in the outgoing
`InitiateContact` request and in the resulting `Connected` state; at
Copper (and generally at any version at or above Copper) a successful
`VersionResponse2` leaves the client `Connected` with feature flags equal
to the intersection of the client's supported mask with the host-reported
mask. -/
theorem c7_feature_flag_negotiation (r : InitiateContactRequest)
    (msg : VersionResponse2) (version : Version)
    (hok : msg.version_supported > 0)
    (hstate : msg.connection_state = ConnectionState.SUCCESSFUL)
    (hfit : msg.supported_features < 2 ^ 32) :
    (∃ f : InitiateContactFields,
      handle_initiate_contact ClientState.Disconnected r Version.Iron =
        ⟨ClientState.Connecting Version.Iron r,
          [WireMessage.InitiateContactMsg f], []⟩ ∧
      f.feature_flags = 0) ∧
    handle_version_response (ClientState.Connecting Version.Iron r) msg =
      some ⟨ClientState.Connected ⟨Version.Iron, 0⟩, [],
        [some ⟨Version.Iron, 0⟩]⟩ ∧
    (version.code ≥ Version.Copper.code →
      handle_version_response (ClientState.Connecting version r) msg =
        some ⟨ClientState.Connected
            ⟨version, SUPPORTED_FEATURE_FLAGS &&& msg.supported_features⟩, [],
          [some ⟨version, SUPPORTED_FEATURE_FLAGS &&& msg.supported_features⟩]⟩) := by
  have hand : SUPPORTED_FEATURE_FLAGS &&& msg.supported_features =
      msg.supported_features := by
    rw [SUPPORTED_FEATURE_FLAGS, Nat.and_comm]
    exact Nat.and_pow_two_sub_one_of_lt_two_pow hfit
  refine ⟨⟨⟨Version.Iron.code, r.target_message_vp, SINT, VTL, 0,
    (r.monitor_page.getD ⟨0, 0⟩).parent_to_child,
    (r.monitor_page.getD ⟨0, 0⟩).child_to_parent⟩, ?_, rfl⟩, ?_, ?_⟩
  · simp [handle_initiate_contact, Version.code]
  · simp [handle_version_response, hok, hstate, Version.code]
  · intro hge
    rw [hand]
    simp [handle_version_response, hok, hstate, hge]

/-- C7 witness: connecting at Copper with a host-reported mask of 5
yields `Connected` feature flags `SUPPORTED_FEATURE_FLAGS &&& 5`, and the
Iron paths carry an empty mask. -/
theorem c7_feature_flag_negotiation_witness :
    (⟨1, ConnectionState.SUCCESSFUL, 5⟩ : VersionResponse2).version_supported
      > 0 ∧
    (∃ f : InitiateContactFields,
      handle_initiate_contact ClientState.Disconnected ⟨1, none, 2⟩
          Version.Iron =
        ⟨ClientState.Connecting Version.Iron ⟨1, none, 2⟩,
          [WireMessage.InitiateContactMsg f], []⟩ ∧
      f.feature_flags = 0) ∧
    handle_version_response (ClientState.Connecting Version.Iron ⟨1, none, 2⟩)
        ⟨1, ConnectionState.SUCCESSFUL, 5⟩ =
      some ⟨ClientState.Connected ⟨Version.Iron, 0⟩, [],
        [some ⟨Version.Iron, 0⟩]⟩ ∧
    (Version.Copper.code ≥ Version.Copper.code →
      handle_version_response
          (ClientState.Connecting Version.Copper ⟨1, none, 2⟩)
          ⟨1, ConnectionState.SUCCESSFUL, 5⟩ =
        some ⟨ClientState.Connected
            ⟨Version.Copper, SUPPORTED_FEATURE_FLAGS &&& 5⟩, [],
          [some ⟨Version.Copper, SUPPORTED_FEATURE_FLAGS &&& 5⟩]⟩) :=
  ⟨by decide, c7_feature_flag_negotiation ⟨1, none, 2⟩
    ⟨1, ConnectionState.SUCCESSFUL, 5⟩ Version.Copper (by decide) rfl
    (by decide)⟩

/-- A channel record in sub-state `Offered`, used by the C4
counterexample. -/
def offeredChannel : Channel := ⟨⟨5, 1, 2⟩, ChannelState.Offered, none⟩

/-- C4 counterexample: in state `RequestingOffers` the negotiated feature
flags (the full supported mask) include
`guest_specified_signal_parameters`, yet an open request on an `Offered`
channel sends plain `OpenChannel`, not `OpenChannel2` as the claim
requires — the code additionally requires the state to be exactly
`Connected`. -/
theorem c4_counterexample :
    FeatureFlags.guest_specified_signal_parameters SUPPORTED_FEATURE_FLAGS =
      true ∧
    handle_open_channel
      (ClientState.RequestingOffers ⟨Version.Copper, SUPPORTED_FEATURE_FLAGS⟩)
      [(5, offeredChannel)] 5 ⟨⟨1, 2, 3, 4, 5, 6⟩, 0⟩ 7 =
      some ⟨[(5, ⟨⟨5, 1, 2⟩, ChannelState.Opening 7, none⟩)],
        [WireMessage.OpenChannelMsg ⟨5, 0, 1, 2, 3, 4⟩], []⟩ := by
  constructor
  · decide
  · rfl

/-- C4 (amended): for an open request on a registered channel in
sub-state `Offered`: when the client state is `Connected` and the
negotiated feature flags include `guest_specified_signal_parameters` or
`channel_interrupt_redirection` (the `open2Negotiated` condition), an
`OpenChannel2` carrying the caller's connection id, event flag and open
flags is sent; otherwise plain `OpenChannel` is sent when the caller's
event flag equals the channel id (truncated to 16 bits) and the process
aborts on a mismatch; in the non-fatal cases the sub-state becomes
`Opening` holding the reply sender.  An open request on a channel not in
`Offered` replies `false` and sends nothing. -/
theorem c4_open_dispatch (s : ClientState) (channels : Channels) (cid : Nat)
    (request : OpenRequest) (sink : Nat) (ch : Channel)
    (hch : assocLookup channels cid = some ch) :
    (ch.state ≠ ChannelState.Offered →
      handle_open_channel s channels cid request sink =
        some ⟨channels, [], [(sink, false)]⟩) ∧
    (ch.state = ChannelState.Offered →
      (open2Negotiated s = true →
        handle_open_channel s channels cid request sink =
          some ⟨assocInsert channels cid
              { ch with state := ChannelState.Opening sink },
            [WireMessage.OpenChannel2Msg
              ⟨cid, 0, request.open_data.ring_gpadl_id,
                request.open_data.target_vp, request.open_data.ring_offset,
                request.open_data.user_data⟩
              request.open_data.connection_id request.open_data.event_flag
              request.flags], []⟩) ∧
      (open2Negotiated s = false →
        (request.open_data.event_flag = cid % 2 ^ 16 →
          handle_open_channel s channels cid request sink =
            some ⟨assocInsert channels cid
                { ch with state := ChannelState.Opening sink },
              [WireMessage.OpenChannelMsg
                ⟨cid, 0, request.open_data.ring_gpadl_id,
                  request.open_data.target_vp, request.open_data.ring_offset,
                  request.open_data.user_data⟩], []⟩) ∧
        (request.open_data.event_flag ≠ cid % 2 ^ 16 →
          handle_open_channel s channels cid request sink = none))) := by
  refine ⟨fun hns => ?_, fun hs => ⟨fun h2 => ?_, fun h2 => ⟨fun hef => ?_,
    fun hef => ?_⟩⟩⟩
  · unfold handle_open_channel
    rw [hch]
    simp [hns]
  · unfold handle_open_channel
    rw [hch]
    simp [hs, h2]
  · unfold handle_open_channel
    rw [hch]
    simp [hs, h2, hef]
  · unfold handle_open_channel
    rw [hch]
    simp only [hs, h2, Bool.false_eq_true, if_false, ne_eq,
      not_false_eq_true, if_neg hef]
    simp [hef]

/-- C4 witness: connected at Copper with the full feature mask, an open
request on an `Offered` channel sends `OpenChannel2` and moves the
channel to `Opening`. -/
theorem c4_open_dispatch_witness :
    assocLookup [(5, offeredChannel)] 5 = some offeredChannel ∧
    handle_open_channel
      (ClientState.Connected ⟨Version.Copper, SUPPORTED_FEATURE_FLAGS⟩)
      [(5, offeredChannel)] 5 ⟨⟨1, 2, 3, 4, 11, 12⟩, 13⟩ 7 =
      some ⟨assocInsert [(5, offeredChannel)] 5
          { offeredChannel with state := ChannelState.Opening 7 },
        [WireMessage.OpenChannel2Msg ⟨5, 0, 1, 2, 3, 4⟩ 12 11 13], []⟩ :=
  ⟨rfl,
    (((c4_open_dispatch
      (ClientState.Connected ⟨Version.Copper, SUPPORTED_FEATURE_FLAGS⟩)
      [(5, offeredChannel)] 5 ⟨⟨1, 2, 3, 4, 11, 12⟩, 13⟩ 7 offeredChannel
      rfl).2 rfl).1 (by decide))⟩

end Vmbus
